import Mathlib

/-!
Verification development for the habit-tracker backend's analysis services:
`app/services/failure_analysis.py`, `app/services/decision_engine.py` and
`app/services/weekly_recommendations.py`.

The Python services are shallowly embedded: SQLAlchemy tables become lists of
records, `datetime.now().date()` becomes an explicit `today : Int` parameter
(dates are modelled as day numbers), Python `float` percentages become exact
rationals, and every service method becomes a total Lean function over a
`Database` value.  Python's stable `sorted` is modelled with `List.insertionSort`
(stable sorts over the same total preorder agree elementwise).
-/

/-! ### Python string primitives -/

/-- Characters of `s.lower()`: Python's ASCII case folding on each character,
matching `Char.toLower` on the ASCII text the analyzer handles. -/
def lowerChars (s : String) : List Char :=
  s.data.map Char.toLower

/-- Boolean test that `n` is a leading segment of `h`. -/
def listPrefixB : List Char → List Char → Bool
  | [], _ => true
  | _ :: _, [] => false
  | a :: as, b :: bs => a == b && listPrefixB as bs

/-- Boolean test that `n` occurs contiguously inside `h`: Python's
`n in h` substring operator. -/
def listInfixB (n : List Char) : List Char → Bool
  | [] => n.isEmpty
  | c :: t => listPrefixB n (c :: t) || listInfixB n t

/-- Python `s.strip()` on a character list: drop whitespace from both ends. -/
def pyStrip (l : List Char) : List Char :=
  ((l.dropWhile Char.isWhitespace).reverse.dropWhile Char.isWhitespace).reverse

/-- Truthiness of Python `s.strip()`: the stripped text is non-empty. -/
def strippedNonempty (s : String) : Bool :=
  !(pyStrip s.data).isEmpty

/-! ### The keyword table and the note extractor
(`FailureAnalyzer._extract_patterns_from_notes`) -/

/-- The fixed `keyword_mapping` dict of `_extract_patterns_from_notes`,
in its Python insertion order. -/
def keyword_mapping : List (String × List String) :=
  [("time", ["busy", "rush", "time", "schedule", "conflict", "late", "early"]),
   ("tired", ["tired", "fatigue", "exhausted", "sleep", "energy"]),
   ("motivation", ["motivation", "unmotivated", "lazy", "no reason"]),
   ("forgot", ["forgot", "forget", "missed", "didn't remember"]),
   ("sick", ["sick", "ill", "health", "doctor", "pain", "injury"]),
   ("travel", ["travel", "trip", "away", "vacation", "commute"]),
   ("weather", ["weather", "rain", "cold", "hot", "storm"]),
   ("other_priority", ["priority", "work", "family", "urgent", "emergency"])]

/-- One increment of a `collections.Counter` held as an association list in
key insertion order. -/
def counterAdd : List (String × Nat) → String → List (String × Nat)
  | [], k => [(k, 1)]
  | (a, n) :: t, k => if a = k then (a, n + 1) :: t else (a, n) :: counterAdd t k

/-- Count looked up in a `Counter` association list (0 when absent). -/
def counterGet : List (String × Nat) → String → Nat
  | [], _ => 0
  | (a, n) :: t, k => if a = k then n else counterGet t k

/-- The inner `for pattern_name, keywords ... break` loop: the first category
of the table whose keyword list has a substring match against the lowered note. -/
def firstMatchingCategory (noteLower : List Char) : List (String × List String) → Option String
  | [] => none
  | (name, kws) :: rest =>
    if kws.any (fun kw => listInfixB kw.data noteLower) then some name
    else firstMatchingCategory noteLower rest

/-- One iteration of the note loop of `_extract_patterns_from_notes`:
`if not note: continue`, then first-match increment, else the `"other"`
fallback guarded by `note.strip()`. -/
def extractStep (patterns : List (String × Nat)) (note : String) : List (String × Nat) :=
  if note = "" then patterns
  else
    match firstMatchingCategory (lowerChars note) keyword_mapping with
    | some name => counterAdd patterns name
    | none => if strippedNonempty note then counterAdd patterns "other" else patterns

/-- `FailureAnalyzer._extract_patterns_from_notes`: fold the note loop over the
input list, starting from the empty `Counter`. -/
def extract_patterns_from_notes (notes : List String) : List (String × Nat) :=
  notes.foldl extractStep []

/-- Per-note classification implied by one loop iteration: `none` for a note
that contributes to no category, otherwise the single category it increments. -/
def classifyNote (note : String) : Option String :=
  if note = "" then none
  else
    match firstMatchingCategory (lowerChars note) keyword_mapping with
    | some name => some name
    | none => if strippedNonempty note then some "other" else none

/-! ### Exact rational arithmetic
Python float arithmetic on the percentages involved is idealized as exact
rational arithmetic.  The Batteries field operations on `Rat` are
`@[irreducible]`, so the embedding computes through `Rat.divInt` (which the
kernel evaluates); the bridge lemmas below identify each operation with the
corresponding `ℚ` field operation. -/

/-- Exact rational addition, computed through `Rat.divInt`. -/
def qadd (a b : ℚ) : ℚ :=
  Rat.divInt (a.num * b.den + b.num * a.den) ((a.den : Int) * b.den)

/-- Exact rational subtraction, computed through `Rat.divInt`. -/
def qsub (a b : ℚ) : ℚ :=
  Rat.divInt (a.num * b.den - b.num * a.den) ((a.den : Int) * b.den)

/-- Exact rational multiplication, computed through `Rat.divInt`. -/
def qmul (a b : ℚ) : ℚ :=
  Rat.divInt (a.num * b.num) ((a.den : Int) * b.den)

/-- Exact rational division, computed through `Rat.divInt` (0 on division by 0,
as in `ℚ`). -/
def qdiv (a b : ℚ) : ℚ :=
  Rat.divInt (a.num * b.den) ((a.den : Int) * b.num)

/-- Python's `sum` builtin over a list of numbers: a left fold of `+` from 0. -/
def qsum (l : List ℚ) : ℚ :=
  l.foldl qadd 0

/-- The numerator of a rational, as the rational times its denominator. -/
theorem qcast_num (a : ℚ) : (a.num : ℚ) = a * a.den := by
  have h : (a.den : ℚ) ≠ 0 := Nat.cast_ne_zero.mpr a.den_nz
  rw [eq_comm, ← eq_div_iff h]
  exact (Rat.num_div_den a).symm

theorem qadd_eq (a b : ℚ) : qadd a b = a + b := by
  have ha : (a.den : ℚ) ≠ 0 := Nat.cast_ne_zero.mpr a.den_nz
  have hb : (b.den : ℚ) ≠ 0 := Nat.cast_ne_zero.mpr b.den_nz
  rw [qadd, Rat.divInt_eq_div]
  push_cast
  field_simp
  rw [qcast_num a, qcast_num b]
  ring

theorem qsub_eq (a b : ℚ) : qsub a b = a - b := by
  have ha : (a.den : ℚ) ≠ 0 := Nat.cast_ne_zero.mpr a.den_nz
  have hb : (b.den : ℚ) ≠ 0 := Nat.cast_ne_zero.mpr b.den_nz
  rw [qsub, Rat.divInt_eq_div]
  push_cast
  field_simp
  rw [qcast_num a, qcast_num b]
  ring

theorem qmul_eq (a b : ℚ) : qmul a b = a * b := by
  have ha : (a.den : ℚ) ≠ 0 := Nat.cast_ne_zero.mpr a.den_nz
  have hb : (b.den : ℚ) ≠ 0 := Nat.cast_ne_zero.mpr b.den_nz
  rw [qmul, Rat.divInt_eq_div]
  push_cast
  field_simp
  rw [qcast_num a, qcast_num b]
  ring

theorem qdiv_eq (a b : ℚ) : qdiv a b = a / b := by
  rw [qdiv, Rat.divInt_eq_div]
  push_cast
  rcases eq_or_ne b 0 with hb | hb
  · subst hb; simp
  · have ha : (a.den : ℚ) ≠ 0 := Nat.cast_ne_zero.mpr a.den_nz
    have hbd : (b.den : ℚ) ≠ 0 := Nat.cast_ne_zero.mpr b.den_nz
    have hbn : (b.num : ℚ) ≠ 0 := Int.cast_ne_zero.mpr (Rat.num_ne_zero.mpr hb)
    field_simp
    rw [qcast_num a, qcast_num b]
    ring

theorem qsum_eq (l : List ℚ) : qsum l = l.sum := by
  have h : ∀ a : ℚ, l.foldl qadd a = a + l.sum := by
    induction l with
    | nil => intro a; simp
    | cons x xs ih => intro a; simp only [List.foldl, qadd_eq, ih, List.sum_cons]; ring
  simpa using h 0

/-! ### Data model
The SQLAlchemy rows the three services read and write.  Each structure keeps
the columns those services access; dates (`Date` columns and the `YYYY-MM-DD`
week keys, whose parse is injective) are modelled as day numbers. -/

/-- A row of `habit_logs`. -/
structure HabitLog where
  habit_id : Int
  user_id : Int
  date : Int
  completed : Int
  notes : Option String
deriving DecidableEq

/-- A row of `habits`. -/
structure Habit where
  id : Int
  user_id : Int
  name : String
  target_frequency : Int
  frequency_unit : String
  is_active : Bool
deriving DecidableEq

/-- A row of `week_summaries`. -/
structure WeekSummary where
  user_id : Int
  week_start_date : Int
  average_completion_percentage : ℚ
deriving DecidableEq

/-- The `RecommendationType` enum of `app/schemas/recommendation.py`. -/
inductive RecommendationType where
  | reduce_scope
  | redesign_habit
  | add_stretch
  | enable_new_habit
  | consistency_improvement
  | schedule_adjustment
deriving DecidableEq

/-- The `RecommendationPriority` enum of `app/schemas/recommendation.py`. -/
inductive RecommendationPriority where
  | low
  | medium
  | high
  | critical
deriving DecidableEq

/-- A row of `weekly_recommendations` as created by the generator
(`is_acted_upon` defaults to 0 and `acted_upon_date` to NULL on insert). -/
structure WeeklyRecommendationRow where
  user_id : Int
  habit_id : Int
  week_start_date : Int
  recommendation_type : RecommendationType
  suggestion : String
  details : String
deriving DecidableEq

/-- The database session's view of the four tables the services touch. -/
structure Database where
  habits : List Habit
  habit_logs : List HabitLog
  week_summaries : List WeekSummary
  weekly_recommendations : List WeeklyRecommendationRow
deriving DecidableEq

/-! ### Numeric helpers -/

/-- Python's banker's rounding of an exact rational to the nearest integer
(`round(x)` and the `:.0f` format round half to even). -/
def pyRoundHalfEven (y : ℚ) : Int :=
  let f := y.floor
  let r := qsub y (Rat.divInt f 1)
  if r < Rat.divInt 1 2 then f
  else if Rat.divInt 1 2 < r then f + 1
  else if f % 2 = 0 then f else f + 1

/-- Python `round(x, 2)`: rounding to two decimal places. -/
def round2 (x : ℚ) : ℚ :=
  Rat.divInt (pyRoundHalfEven (qmul x 100)) 100

/-- Python `f"{x:.0f}"`: the rounded value rendered with no decimals. -/
def pyFmt0 (x : ℚ) : String :=
  toString (pyRoundHalfEven x)

/-- Python `date.strftime("%A")` on a day number (weekday anchor arbitrary). -/
def dayName (d : Int) : String :=
  ["Monday", "Tuesday", "Wednesday", "Thursday", "Friday", "Saturday", "Sunday"].getD
    (d % 7).toNat "Monday"

/-- Python `max(items, key=lambda x: x[1])` over a `dict.items()` list:
the first pair holding the maximal count (`none` on an empty list). -/
def pyMaxBySnd : List (String × Nat) → Option (String × Nat)
  | [] => none
  | h :: t => some (t.foldl (fun best p => if best.2 < p.2 then p else best) h)

/-- Python's stable `sorted(l, key=key, reverse=True)` for a numeric key:
insertion sort under the descending total preorder (Timsort and insertion sort
are both stable, so they agree). -/
def sortByKeyDesc (key : α → ℚ) (l : List α) : List α :=
  l.insertionSort (fun a b => key b ≤ key a)

/-- As `sortByKeyDesc`, for a `Nat`-valued key. -/
def sortByNatKeyDesc (key : α → Nat) (l : List α) : List α :=
  l.insertionSort (fun a b => key b ≤ key a)

/-! ### FailureAnalyzer (`app/services/failure_analysis.py`) -/

/-- The analysis dictionary returned by
`FailureAnalyzer.get_failure_patterns_for_habit`. -/
structure FailureAnalysis where
  habit_id : Int
  total_days_tracked : Nat
  total_failures : Nat
  failure_rate : ℚ
  patterns : List (String × Nat)
  common_failure_days : List (String × Nat)
  consecutive_failures : Nat
  last_failure_date : Option Int
deriving DecidableEq

/-- The `HabitLog` query of `get_failure_patterns_for_habit`: logs of the habit
and user dated on or after `today - days`. -/
def habitLogsInWindow (db : Database) (today habit_id user_id days : Int) : List HabitLog :=
  db.habit_logs.filter fun l =>
    l.habit_id == habit_id && l.user_id == user_id && decide (today - days ≤ l.date)

/-- `FailureAnalyzer._count_consecutive_failures`: sort by date (stably) and
count the trailing run of logs with `completed == 0`. -/
def count_consecutive_failures (logs : List HabitLog) : Nat :=
  if logs.isEmpty then 0
  else
    let sorted_logs := logs.insertionSort fun a b => a.date ≤ b.date
    (sorted_logs.reverse.takeWhile fun l => l.completed == 0).length

/-- `FailureAnalyzer.get_failure_patterns_for_habit` (total: the zero analysis
on an empty window, never an exception). -/
def get_failure_patterns_for_habit
    (db : Database) (today habit_id user_id days : Int) : FailureAnalysis :=
  let logs := habitLogsInWindow db today habit_id user_id days
  if logs.isEmpty then
    { habit_id := habit_id
      total_days_tracked := 0
      total_failures := 0
      failure_rate := 0
      patterns := []
      common_failure_days := []
      consecutive_failures := 0
      last_failure_date := none }
  else
    let total_failures := logs.countP fun l => l.completed == 0
    let total_days := logs.length
    let failure_rate := qmul (qdiv total_failures total_days) 100
    let patterns := extract_patterns_from_notes
      ((logs.filterMap HabitLog.notes).filter fun n => n != "")
    let failure_day_counts :=
      ((logs.filter fun l => l.completed == 0).map fun l => dayName l.date).foldl counterAdd []
    let common_failure_days := (sortByNatKeyDesc Prod.snd failure_day_counts).take 3
    { habit_id := habit_id
      total_days_tracked := total_days
      total_failures := total_failures
      failure_rate := round2 failure_rate
      patterns := patterns
      common_failure_days := common_failure_days
      consecutive_failures := count_consecutive_failures logs
      last_failure_date := ((logs.filter fun l => l.completed == 0).map HabitLog.date).max? }

/-- `FailureAnalyzer.get_failure_patterns_for_user`: the per-habit analysis for
every active habit of the user, keyed by habit id in query order. -/
def get_failure_patterns_for_user
    (db : Database) (today user_id days : Int) : List (Int × FailureAnalysis) :=
  (db.habits.filter fun h => h.user_id == user_id && h.is_active).map fun h =>
    (h.id, get_failure_patterns_for_habit db today h.id user_id days)

/-- An entry of the list returned by `identify_repeated_failures`. -/
structure RepeatedFailure where
  pattern : String
  occurrences : Nat
  percentage : ℚ
deriving DecidableEq

/-- `FailureAnalyzer.identify_repeated_failures`: the patterns counted at least
twice, with their share of total failures, sorted descending by occurrences. -/
def identify_repeated_failures
    (db : Database) (today habit_id user_id days : Int) : List RepeatedFailure :=
  let analysis := get_failure_patterns_for_habit db today habit_id user_id days
  let repeated := (analysis.patterns.filter fun p => 2 ≤ p.2).map fun p =>
    { pattern := p.1
      occurrences := p.2
      percentage :=
        if 0 < analysis.total_failures then
          round2 (qmul (qdiv p.2 analysis.total_failures) 100)
        else 0 : RepeatedFailure }
  sortByNatKeyDesc RepeatedFailure.occurrences repeated

/-- `FailureAnalyzer.get_top_failure_reasons_across_habits`: patterns of the
notes on the user's failed logs in the window (notes must be non-NULL, non-empty
and not whitespace-only). -/
def get_top_failure_reasons_across_habits
    (db : Database) (today user_id days : Int) : List (String × Nat) :=
  let failed_logs := db.habit_logs.filter fun l =>
    l.user_id == user_id && l.completed == 0 && decide (today - days ≤ l.date)
      && l.notes.isSome
  let notes := (failed_logs.filterMap HabitLog.notes).filter fun n =>
    n != "" && strippedNonempty n
  extract_patterns_from_notes notes

/-- An entry of the list returned by `get_habits_with_critical_failures`. -/
structure CriticalHabit where
  habit_id : Int
  habit_name : String
  failure_rate : ℚ
  total_failures : Nat
  total_days_tracked : Nat
  consecutive_failures : Nat
deriving DecidableEq

/-- `FailureAnalyzer.get_habits_with_critical_failures`: the user's active
habits whose 14-day failure rate reaches the threshold, sorted descending by
failure rate (`db.query(Habit).get` is the primary-key lookup). -/
def get_habits_with_critical_failures
    (db : Database) (today user_id : Int) (failure_rate_threshold : ℚ) : List CriticalHabit :=
  let patterns := get_failure_patterns_for_user db today user_id 14
  let critical_habits := patterns.filterMap fun p =>
    if failure_rate_threshold ≤ p.2.failure_rate then
      match db.habits.find? (fun h => h.id == p.1) with
      | some habit => some
          { habit_id := p.1
            habit_name := habit.name
            failure_rate := p.2.failure_rate
            total_failures := p.2.total_failures
            total_days_tracked := p.2.total_days_tracked
            consecutive_failures := p.2.consecutive_failures }
      | none => none
    else none
  sortByKeyDesc CriticalHabit.failure_rate critical_habits

/-! ### DecisionEngine (`app/services/decision_engine.py`) -/

/-- An entry of a recommendation's `failure_patterns` list
(`FailurePattern` schema; `last_occurred` is never set by the engine). -/
structure FailurePatternEntry where
  pattern : String
  frequency : Nat
  percentage : ℚ
deriving DecidableEq

/-- A habit-level recommendation (`HabitRecommendation` schema and its three
subclasses; the subclass-specific fields are `none` on the other kinds). -/
structure HabitRecommendation where
  habit_id : Int
  habit_name : String
  recommendation_type : RecommendationType
  title : String
  description : String
  action_items : List String
  priority : RecommendationPriority
  reason : String
  current_completion_rate : ℚ
  trend : String
  failure_patterns : List FailurePatternEntry := []
  bad_weeks_count : Option Nat := none
  suggested_reduction : Option String := none
  failure_count : Option Nat := none
  failure_type : Option String := none
  stability_score : Option ℚ := none
  trend_days : Option Nat := none
  suggested_stretch : Option String := none
deriving DecidableEq

/-- The `WeekSummary` query shared by the decision-engine rules: the user's
summaries dated on or after `cutoff`, ordered newest first (the unique
constraint on `(user_id, week_start_date)` makes the order total). -/
def weekSummariesSince (db : Database) (user_id cutoff : Int) : List WeekSummary :=
  (db.week_summaries.filter fun s =>
      s.user_id == user_id && decide (cutoff ≤ s.week_start_date)).insertionSort
    fun a b => b.week_start_date ≤ a.week_start_date

/-- `DecisionEngine._get_current_completion_rate`: the habit's completion
percentage over the last 7 days (0.0 with no logs). -/
def get_current_completion_rate (db : Database) (today : Int) (habit : Habit) (user_id : Int) : ℚ :=
  let logs := db.habit_logs.filter fun l =>
    l.habit_id == habit.id && l.user_id == user_id && decide (today - 7 ≤ l.date)
  if logs.isEmpty then 0
  else round2 (qmul (qdiv (logs.countP fun l => l.completed == 1) logs.length) 100)

/-- `DecisionEngine._get_failure_patterns`: the habit's 14-day pattern counts as
`FailurePattern` entries, sorted descending by frequency. -/
def get_failure_patterns (db : Database) (today : Int) (habit : Habit) (user_id : Int) :
    List FailurePatternEntry :=
  let analysis := get_failure_patterns_for_habit db today habit.id user_id 14
  let patterns := analysis.patterns.filterMap fun p =>
    if 0 < p.2 then
      some { pattern := p.1
             frequency := p.2
             percentage :=
               if 0 < analysis.total_failures then
                 round2 (qmul (qdiv p.2 analysis.total_failures) 100)
               else 0 : FailurePatternEntry }
    else none
  sortByNatKeyDesc FailurePatternEntry.frequency patterns

/-- `DecisionEngine._check_two_bad_weeks` (rule 1): with at least two week
summaries in the 14-day lookback and both of the two most recent below 50%
completion, a scope-reduction recommendation. -/
def check_two_bad_weeks (db : Database) (today : Int) (habit : Habit) (user_id : Int) :
    Option HabitRecommendation :=
  let week_summaries := (weekSummariesSince db user_id (today - 14)).take 2
  if week_summaries.length < 2 then none
  else
    let bad_week_count := week_summaries.countP fun s =>
      s.average_completion_percentage < 50
    if 2 ≤ bad_week_count then
      some
        { habit_id := habit.id
          habit_name := habit.name
          recommendation_type := RecommendationType.reduce_scope
          title := "Consider Reducing Habit Scope"
          description := "Your '" ++ habit.name ++
            "' habit has had 2 consecutive weeks with low completion (< 50%). This suggests the current scope might be too ambitious."
          action_items :=
            ["Reduce frequency from " ++ toString habit.target_frequency ++ "x per " ++
               habit.frequency_unit ++ " to a smaller number",
             "Break the habit into smaller, more achievable steps",
             "Consider setting a specific time or trigger for the habit",
             "Review and remove any obstacles to completion"]
          priority := RecommendationPriority.high
          reason := "2 consecutive weeks below 50% completion threshold"
          current_completion_rate := get_current_completion_rate db today habit user_id
          trend := "down"
          failure_patterns := get_failure_patterns db today habit user_id
          bad_weeks_count := some bad_week_count
          suggested_reduction := some (toString habit.target_frequency ++ "x → " ++
            toString (max 1 (habit.target_frequency - 1)) ++ "x per " ++ habit.frequency_unit) }
    else none

/-- `DecisionEngine._check_repeated_failures` (rule 2): a redesign
recommendation when the top repeated failure pattern of the last 14 days
occurred at least 3 times. -/
def check_repeated_failures (db : Database) (today : Int) (habit : Habit) (user_id : Int) :
    Option HabitRecommendation :=
  match identify_repeated_failures db today habit.id user_id 14 with
  | [] => none
  | top :: _ =>
    if 3 ≤ top.occurrences then
      some
        { habit_id := habit.id
          habit_name := habit.name
          recommendation_type := RecommendationType.redesign_habit
          title := "Redesign Habit for Better Success"
          description := "Your '" ++ habit.name ++ "' habit consistently fails due to '" ++
            top.pattern ++ "' (occurred " ++ toString top.occurrences ++
            " times in the last 2 weeks). The habit design might not be compatible with your lifestyle."
          action_items :=
            ["Address the '" ++ top.pattern ++ "' barrier directly",
             "Redesign the habit to work around " ++ top.pattern,
             "Consider changing the time, location, or method of habit execution",
             "Create a specific implementation plan for the new design",
             "Test the redesigned habit for 1-2 weeks"]
          priority := RecommendationPriority.high
          reason := "Same failure pattern (" ++ top.pattern ++ ") repeated " ++
            toString top.occurrences ++ " times"
          current_completion_rate := get_current_completion_rate db today habit user_id
          trend := "down"
          failure_patterns := get_failure_patterns db today habit user_id
          failure_count := some top.occurrences
          failure_type := some top.pattern }
    else none

/-- `DecisionEngine._check_stretch_opportunity` (rule 3): all summaries of the
28-day lookback (at least two) at 70%+ with under 10 points of improvement from
oldest to newest yield a stretch recommendation. -/
def check_stretch_opportunity (db : Database) (today : Int) (habit : Habit) (user_id : Int) :
    Option HabitRecommendation :=
  let week_summaries := weekSummariesSince db user_id (today - 28)
  if week_summaries.length < 2 then none
  else
    let completions := week_summaries.map WeekSummary.average_completion_percentage
    let is_stable := completions.all fun c => decide (70 ≤ c)
    if !is_stable then none
    else
      let oldest_completion := completions.getLastD 0
      let newest_completion := completions.headD 0
      let trend := qsub newest_completion oldest_completion
      if trend < 10 then
        let stability_score := qdiv (qsum completions) completions.length
        some
          { habit_id := habit.id
            habit_name := habit.name
            recommendation_type := RecommendationType.add_stretch
            title := "You're Ready for a Stretch Goal!"
            description := "You've maintained excellent consistency with '" ++ habit.name ++
              "' at " ++ pyFmt0 stability_score ++
              "% completion. Since your performance has plateaued, it's time to challenge yourself with a stretch goal."
            action_items :=
              ["Increase frequency from " ++ toString habit.target_frequency ++ "x to " ++
                 toString (habit.target_frequency + 1) ++ "x per " ++ habit.frequency_unit,
               "Or increase quality/duration of each completion",
               "Add a numerical target (e.g., 'run 5km' instead of 'run')",
               "Track your progress on the stretch goal for 2-3 weeks"]
            priority := RecommendationPriority.medium
            reason := "Consistent " ++ pyFmt0 stability_score ++
              "% completion with stable trend"
            current_completion_rate := get_current_completion_rate db today habit user_id
            trend := "stable"
            stability_score := some stability_score
            trend_days := some (week_summaries.length * 7)
            suggested_stretch := some (toString habit.target_frequency ++ "x → " ++
              toString (habit.target_frequency + 1) ++ "x per " ++ habit.frequency_unit) }
      else none

/-- `DecisionEngine._check_ready_for_new_habit` (rule 4): the three most recent
summaries of a 21-day lookback all at 85%+. -/
def check_ready_for_new_habit (db : Database) (today user_id : Int) : Bool :=
  let week_summaries := (weekSummariesSince db user_id (today - 21)).take 3
  if week_summaries.length < 3 then false
  else week_summaries.all fun s => decide (85 ≤ s.average_completion_percentage)

/-- `DecisionEngine._calculate_average_completion`: the mean of the per-habit
7-day completion rates (0.0 with no habits). -/
def calculate_average_completion (db : Database) (today user_id : Int)
    (habits : List Habit) : ℚ :=
  if habits.isEmpty then 0
  else
    round2 (qdiv (qsum (habits.map fun h => get_current_completion_rate db today h user_id))
      habits.length)

/-- `DecisionEngine._generate_system_recommendations`. -/
def generate_system_recommendations (db : Database) (today user_id : Int)
    (habits : List Habit) : List String :=
  let l1 :=
    if check_ready_for_new_habit db today user_id then
      ["🎉 You've demonstrated 85%+ completion for 3 weeks! You're ready to add a new habit to your routine."]
    else []
  let avg_completion := calculate_average_completion db today user_id habits
  let l2 :=
    if avg_completion < 50 then
      ["💡 Your overall completion is below 50%. Try focusing on just 2-3 core habits before adding more."]
    else if 50 ≤ avg_completion ∧ avg_completion < 70 then
      ["📈 You're making progress! Consider scheduling a weekly review to identify and fix obstacles."]
    else if 85 ≤ avg_completion then
      ["🏆 You're tracking habits consistently at 85%+! Keep up this excellent momentum!"]
    else []
  let critical_habits := get_habits_with_critical_failures db today user_id 60
  let l3 :=
    if !critical_habits.isEmpty then
      ["⚠️ " ++ toString critical_habits.length ++
        " habit(s) have high failure rates. Consider pausing one to focus on the others."]
    else []
  let top_failures := get_top_failure_reasons_across_habits db today user_id 14
  let l4 :=
    match pyMaxBySnd top_failures with
    | none => []
    | some top_reason =>
      ["🔍 Your most common failure reason is '" ++ top_reason.1 ++
        "'. Try to address this barrier proactively."]
  l1 ++ l2 ++ l3 ++ l4

/-- Numeric rank of a priority in `DecisionEngine._prioritize_actions`. -/
def priorityOrder : RecommendationPriority → Nat
  | RecommendationPriority.critical => 0
  | RecommendationPriority.high => 1
  | RecommendationPriority.medium => 2
  | RecommendationPriority.low => 3

/-- `DecisionEngine._prioritize_actions`: the top five recommendations by
priority, rendered as numbered action lines. -/
def prioritize_actions (recommendations : List HabitRecommendation) : List String :=
  let sorted_recs := recommendations.insertionSort fun a b =>
    priorityOrder a.priority ≤ priorityOrder b.priority
  ((sorted_recs.take 5).enumFrom 1).map fun p =>
    toString p.1 ++ ". " ++ p.2.title ++ " for '" ++ p.2.habit_name ++ "'"

/-- `DecisionEngine._generate_habit_recommendations`: rules 1-3 for one habit,
in rule order. -/
def generate_habit_recommendations (db : Database) (today : Int) (habit : Habit)
    (user_id : Int) : List HabitRecommendation :=
  (check_two_bad_weeks db today habit user_id).toList ++
    (check_repeated_failures db today habit user_id).toList ++
    (check_stretch_opportunity db today habit user_id).toList

/-- The response of `DecisionEngine.generate_recommendations`
(`generated_at`, a wall-clock timestamp, is not modelled). -/
structure RecommendationResponse where
  user_id : Int
  habit_recommendations : List HabitRecommendation
  system_recommendations : List String
  total_habits_tracked : Nat
  average_completion_rate : ℚ
  habits_needing_attention : Nat
  next_steps : List String
deriving DecidableEq

/-- `DecisionEngine.generate_recommendations`: the full read-only analysis
pass for one user. -/
def generate_recommendations (db : Database) (today user_id : Int) : RecommendationResponse :=
  let habits := db.habits.filter fun h => h.user_id == user_id && h.is_active
  if habits.isEmpty then
    { user_id := user_id
      habit_recommendations := []
      system_recommendations := ["Create your first habit to get started!"]
      total_habits_tracked := 0
      average_completion_rate := 0
      habits_needing_attention := 0
      next_steps := ["Add a habit to begin tracking"] }
  else
    let habit_recommendations := habits.flatMap fun h =>
      generate_habit_recommendations db today h user_id
    { user_id := user_id
      habit_recommendations := habit_recommendations
      system_recommendations := generate_system_recommendations db today user_id habits
      total_habits_tracked := habits.length
      average_completion_rate := calculate_average_completion db today user_id habits
      habits_needing_attention := habit_recommendations.length
      next_steps := prioritize_actions habit_recommendations }

/-- `generate_recommendations` as a session step: the method only issues
SELECT queries (no `add`, `delete` or `commit`), so the database state it
returns alongside the response is the input state. -/
def run_generate_recommendations (db : Database) (today user_id : Int) :
    RecommendationResponse × Database :=
  (generate_recommendations db today user_id, db)

/-! ### WeeklyRecommendationGenerator (`app/services/weekly_recommendations.py`) -/

/-- `WeeklyRecommendationGenerator._get_habit_week_completion`: the habit's
completion percentage over the inclusive 7-day span starting at
`week_start_date` (0.0 with no logs; no rounding here). -/
def get_habit_week_completion (db : Database) (habit_id user_id week_start_date : Int) : ℚ :=
  let logs := db.habit_logs.filter fun l =>
    l.habit_id == habit_id && l.user_id == user_id &&
      decide (week_start_date ≤ l.date) && decide (l.date ≤ week_start_date + 6)
  if logs.isEmpty then 0
  else qmul (qdiv (logs.countP fun l => l.completed == 1) logs.length) 100

/-- `WeeklyRecommendationGenerator._get_week_summary`: the user's summary row
for the given week, if any. -/
def get_week_summary (db : Database) (user_id week_start_date : Int) : Option WeekSummary :=
  db.week_summaries.find? fun s =>
    s.user_id == user_id && s.week_start_date == week_start_date

/-- Rule 1 of `_generate_habit_weekly_recommendations`: very low completion
(strictly below 30%) suggests reducing scope. -/
def ruleReduceScope (habit : Habit) (user_id week_start_date : Int)
    (week_completion : ℚ) : List WeeklyRecommendationRow :=
  if week_completion < 30 then
    [{ user_id := user_id
       habit_id := habit.id
       week_start_date := week_start_date
       recommendation_type := RecommendationType.reduce_scope
       suggestion := "Consider reducing the scope of '" ++ habit.name ++ "'"
       details := "This week you completed '" ++ habit.name ++ "' only " ++
         pyFmt0 week_completion ++
         "% of the time. This suggests the habit might be too ambitious. Try reducing the frequency or difficulty, and rebuild from there." }]
  else []

/-- Rule 2 of `_generate_habit_weekly_recommendations`: a failure pattern
repeated at least twice in the analyzer's 7-day window (anchored at `today`)
suggests a redesign. -/
def ruleRedesign (db : Database) (today : Int) (habit : Habit)
    (user_id week_start_date : Int) : List WeeklyRecommendationRow :=
  match identify_repeated_failures db today habit.id user_id 7 with
  | [] => []
  | top :: _ =>
    if 2 ≤ top.occurrences then
      [{ user_id := user_id
         habit_id := habit.id
         week_start_date := week_start_date
         recommendation_type := RecommendationType.redesign_habit
         suggestion := "Redesign '" ++ habit.name ++ "' to address '" ++ top.pattern ++ "'"
         details := "This week, '" ++ habit.name ++ "' failed " ++
           toString top.occurrences ++ " times due to '" ++ top.pattern ++
           "'. Next week, try a different approach that accounts for this barrier." }]
    else []

/-- Rule 3 of `_generate_habit_weekly_recommendations`: excellent completion
(at least 85%) suggests a stretch goal. -/
def ruleAddStretch (habit : Habit) (user_id week_start_date : Int)
    (week_completion : ℚ) : List WeeklyRecommendationRow :=
  if 85 ≤ week_completion then
    [{ user_id := user_id
       habit_id := habit.id
       week_start_date := week_start_date
       recommendation_type := RecommendationType.add_stretch
       suggestion := "Add a stretch goal to '" ++ habit.name ++ "'"
       details := "Great job! You completed '" ++ habit.name ++ "' " ++
         pyFmt0 week_completion ++
         "% of the time. Next week, challenge yourself by increasing the frequency or difficulty. This will help you continue growing." }]
  else []

/-- Rule 4 of `_generate_habit_weekly_recommendations`: moderate completion
(at least 70%, strictly below 85%) suggests consistency work. -/
def ruleConsistency (habit : Habit) (user_id week_start_date : Int)
    (week_completion : ℚ) : List WeeklyRecommendationRow :=
  if 70 ≤ week_completion ∧ week_completion < 85 then
    [{ user_id := user_id
       habit_id := habit.id
       week_start_date := week_start_date
       recommendation_type := RecommendationType.consistency_improvement
       suggestion := "Build consistency with '" ++ habit.name ++ "'"
       details := "You're doing well with '" ++ habit.name ++ "' at " ++
         pyFmt0 week_completion ++ "% completion. Next week, focus on the " ++
         pyFmt0 (qsub 100 week_completion) ++ "% you missed and aim for 90%+." }]
  else []

/-- Rule 5 of `_generate_habit_weekly_recommendations`: a most-frequent failure
day (from the analyzer's 7-day window, anchored at `today`) suggests a schedule
adjustment. -/
def ruleSchedule (db : Database) (today : Int) (habit : Habit)
    (user_id week_start_date : Int) : List WeeklyRecommendationRow :=
  match (get_failure_patterns_for_habit db today habit.id user_id 7).common_failure_days with
  | [] => []
  | top_failure_day :: _ =>
    [{ user_id := user_id
       habit_id := habit.id
       week_start_date := week_start_date
       recommendation_type := RecommendationType.schedule_adjustment
       suggestion := "Adjust '" ++ habit.name ++ "' schedule on " ++
         top_failure_day.1 ++ "s"
       details := "You missed '" ++ habit.name ++ "' most often on " ++
         top_failure_day.1 ++ "s (" ++ toString top_failure_day.2 ++
         " times). Try scheduling it at a different time on that day, or prepare in advance." }]

/-- `WeeklyRecommendationGenerator._generate_habit_weekly_recommendations`:
the five weekly rules for one habit, in source order; rules 2 and 5 run the
failure analyzer with `days=7`, whose window is anchored at `today`, not at
`week_start_date`.  The `week_summary` argument is accepted and never read,
as in the source. -/
def generate_habit_weekly_recommendations (db : Database) (today : Int) (habit : Habit)
    (user_id week_start_date : Int) (_week_summary : Option WeekSummary) :
    List WeeklyRecommendationRow :=
  let week_completion := get_habit_week_completion db habit.id user_id week_start_date
  ruleReduceScope habit user_id week_start_date week_completion ++
    ruleRedesign db today habit user_id week_start_date ++
    ruleAddStretch habit user_id week_start_date week_completion ++
    ruleConsistency habit user_id week_start_date week_completion ++
    ruleSchedule db today habit user_id week_start_date

/-- `WeeklyRecommendationGenerator._save_recommendations`: delete every stored
recommendation for `(user_id, week_start_date)`, then insert the new ones. -/
def save_recommendations (db : Database) (recommendations : List WeeklyRecommendationRow)
    (user_id week_start_date : Int) : Database :=
  { db with
    weekly_recommendations :=
      (db.weekly_recommendations.filter fun r =>
        !(r.user_id == user_id && r.week_start_date == week_start_date)) ++
        recommendations }

/-- `WeeklyRecommendationGenerator.generate_weekly_recommendations`: compute
the weekly rows for every active habit of the user and persist them with
`save_recommendations`; returns the rows and the session state after commit. -/
def generate_weekly_recommendations (db : Database) (today user_id week_start_date : Int) :
    List WeeklyRecommendationRow × Database :=
  let habits := db.habits.filter fun h => h.user_id == user_id && h.is_active
  let week_summary := get_week_summary db user_id week_start_date
  let recommendations := habits.flatMap fun h =>
    generate_habit_weekly_recommendations db today h user_id week_start_date week_summary
  (recommendations, save_recommendations db recommendations user_id week_start_date)

/-! ### Lemmas about the note extractor -/

theorem counterGet_counterAdd (l : List (String × Nat)) (k c : String) :
    counterGet (counterAdd l k) c = counterGet l c + (if c = k then 1 else 0) := by
  induction l with
  | nil =>
    by_cases h : k = c
    · subst h; simp [counterAdd, counterGet]
    · simp only [counterAdd, counterGet]
      rw [if_neg h, if_neg fun hh : c = k => h hh.symm]
  | cons hd tl ih =>
    obtain ⟨a, n⟩ := hd
    by_cases hak : a = k
    · subst hak
      by_cases hc : a = c
      · subst hc; simp [counterAdd, counterGet]
      · have hck : ¬c = a := fun hh => hc hh.symm
        simp [counterAdd, counterGet, hc, hck]
    · by_cases hac : a = c
      · subst hac
        have hck : ¬a = k := hak
        simp [counterAdd, counterGet, hak, hck]
      · simp [counterAdd, counterGet, hak, hac, ih]

theorem counterGet_extractStep (acc : List (String × Nat)) (n c : String) :
    counterGet (extractStep acc n) c =
      counterGet acc c + (if classifyNote n = some c then 1 else 0) := by
  unfold extractStep classifyNote
  by_cases h0 : n = ""
  · simp [h0]
  · simp only [h0, if_false]
    cases hm : firstMatchingCategory (lowerChars n) keyword_mapping with
    | some name =>
      simp only [counterGet_counterAdd, Option.some.injEq]
      by_cases hc : c = name
      · simp [hc]
      · have hnc : ¬name = c := fun hh => hc hh.symm
        simp [hc, hnc]
    | none =>
      by_cases hs : strippedNonempty n
      · simp only [hs, if_true, counterGet_counterAdd, Option.some.injEq]
        by_cases hc : c = "other"
        · simp [hc]
        · have hnc : ¬"other" = c := fun hh => hc hh.symm
          simp [hc, hnc]
      · simp [hs]

theorem counterGet_extract (notes : List String) (c : String) :
    counterGet (extract_patterns_from_notes notes) c =
      notes.countP fun n => classifyNote n == some c := by
  suffices h : ∀ acc, counterGet (notes.foldl extractStep acc) c =
      counterGet acc c + notes.countP (fun n => classifyNote n == some c) by
    simpa [extract_patterns_from_notes, counterGet] using h []
  induction notes with
  | nil => intro acc; simp
  | cons x xs ih =>
    intro acc
    rw [List.foldl_cons, ih, counterGet_extractStep, List.countP_cons]
    simp only [beq_iff_eq]
    omega

theorem mem_of_listPrefixB {n h : List Char} (hp : listPrefixB n h = true) :
    ∀ x ∈ n, x ∈ h := by
  induction n generalizing h with
  | nil => simp
  | cons a as ih =>
    cases h with
    | nil => simp [listPrefixB] at hp
    | cons b bs =>
      simp only [listPrefixB, Bool.and_eq_true, beq_iff_eq] at hp
      intro x hx
      rcases List.mem_cons.mp hx with rfl | hx
      · exact hp.1 ▸ List.mem_cons_self _ _
      · exact List.mem_cons_of_mem b (ih hp.2 x hx)

theorem mem_of_listInfixB {n h : List Char} (hi : listInfixB n h = true) :
    ∀ x ∈ n, x ∈ h := by
  induction h with
  | nil =>
    cases n with
    | nil => simp
    | cons a as => simp [listInfixB, List.isEmpty] at hi
  | cons b bs ih =>
    simp only [listInfixB, Bool.or_eq_true] at hi
    rcases hi with hp | hi
    · exact mem_of_listPrefixB hp
    · exact fun x hx => List.mem_cons_of_mem b (ih hi x hx)

theorem isWhitespace_toLower {c : Char} (hc : c.isWhitespace) :
    (Char.toLower c).isWhitespace := by
  have h : ((c = ' ' ∨ c = '\t') ∨ c = '\r') ∨ c = '\n' := by
    simpa [Char.isWhitespace] using hc
  rcases h with ((rfl | rfl) | rfl) | rfl <;> decide

theorem pyStrip_eq_nil {l : List Char} (h : ∀ x ∈ l, x.isWhitespace) : pyStrip l = [] := by
  unfold pyStrip
  rw [List.dropWhile_eq_nil_iff.mpr h]
  rfl

theorem strippedNonempty_eq_false {s : String} (h : ∀ x ∈ s.data, x.isWhitespace) :
    strippedNonempty s = false := by
  simp [strippedNonempty, pyStrip_eq_nil h]

/-- Every keyword of the table holds a non-whitespace character. -/
theorem keyword_table_nonblank :
    ∀ p ∈ keyword_mapping, ∀ kw ∈ p.2, ∃ c ∈ kw.data, ¬c.isWhitespace := by decide

theorem firstMatchingCategory_blank {note : String} (h : ∀ x ∈ note.data, x.isWhitespace) :
    firstMatchingCategory (lowerChars note) keyword_mapping = none := by
  have hlow : ∀ x ∈ lowerChars note, x.isWhitespace := by
    intro x hx
    simp only [lowerChars, List.mem_map] at hx
    obtain ⟨y, hy, rfl⟩ := hx
    exact isWhitespace_toLower (h y hy)
  suffices h2 : ∀ table : List (String × List String),
      (∀ p ∈ table, ∀ kw ∈ p.2, ∃ c ∈ kw.data, ¬c.isWhitespace) →
      firstMatchingCategory (lowerChars note) table = none from
    h2 keyword_mapping keyword_table_nonblank
  intro table htab
  induction table with
  | nil => rfl
  | cons p rest ih =>
    unfold firstMatchingCategory
    rw [if_neg, ih fun q hq => htab q (List.mem_cons_of_mem _ hq)]
    intro hany
    simp only [List.any_eq_true] at hany
    obtain ⟨kw, hkw, hin⟩ := hany
    obtain ⟨c, hc, hcw⟩ := htab p (List.mem_cons_self _ _) kw hkw
    exact hcw (hlow c (mem_of_listInfixB hin c hc))

theorem classifyNote_blank {note : String} (h : ∀ x ∈ note.data, x.isWhitespace) :
    classifyNote note = none := by
  unfold classifyNote
  by_cases h0 : note = ""
  · simp [h0]
  · simp [h0, firstMatchingCategory_blank h, strippedNonempty_eq_false h]

/-- C1: the extractor processes each note deterministically and independently —
the count it assigns to each category equals the number of notes whose
independent per-note classification (first matching category in fixed table
order, case-insensitive substring match, `"other"` fallback for non-blank
unmatched text) is that category; empty or whitespace-only notes are classified
into no category; a note holding both "tired" and "busy" falls to "time"
because the time keywords come first in table order, and a non-empty note
matching no keyword is counted as "other". -/
theorem extractor_note_classification_C1 :
    (∀ notes c, counterGet (extract_patterns_from_notes notes) c =
      notes.countP fun n => classifyNote n == some c)
    ∧ (∀ note : String, (∀ x ∈ note.data, x.isWhitespace) → classifyNote note = none)
    ∧ classifyNote "I was tired and busy" = some "time"
    ∧ classifyNote "zzz" = some "other" :=
  ⟨counterGet_extract, fun _ h => classifyNote_blank h, by decide, by decide⟩

/-- Witness for C1 at concrete inputs. -/
theorem extractor_note_classification_C1_witness :
    (counterGet (extract_patterns_from_notes ["I was tired and busy", "  ", ""]) "time" = 1)
    ∧ classifyNote "  " = none := by
  constructor
  · rw [extractor_note_classification_C1.1]
    decide
  · exact extractor_note_classification_C1.2.1 "  " (by decide)

/-- C2: a habit with zero log entries in the analysis window yields the zeroed
analysis — 0 days tracked, 0 failures, failure rate 0.0, no patterns, no
common failure days, 0 consecutive failures — and, being a total function,
never an exception; absence of data is never treated as failure. -/
theorem zero_window_analysis_C2 (db : Database) (today habit_id user_id days : Int)
    (h : habitLogsInWindow db today habit_id user_id days = []) :
    get_failure_patterns_for_habit db today habit_id user_id days =
      { habit_id := habit_id
        total_days_tracked := 0
        total_failures := 0
        failure_rate := 0
        patterns := []
        common_failure_days := []
        consecutive_failures := 0
        last_failure_date := none } := by
  simp [get_failure_patterns_for_habit, h]

/-- Witness for C2 on the empty database. -/
theorem zero_window_analysis_C2_witness :
    (get_failure_patterns_for_habit ⟨[], [], [], []⟩ 0 1 1 14).failure_rate = 0
    ∧ (get_failure_patterns_for_habit ⟨[], [], [], []⟩ 0 1 1 14).consecutive_failures = 0 := by
  rw [zero_window_analysis_C2 ⟨[], [], [], []⟩ 0 1 1 14 rfl]
  exact ⟨rfl, rfl⟩

/-! ### Lemmas for the two-bad-weeks rule -/

theorem check_two_bad_weeks_isSome_iff (db : Database) (today : Int) (habit : Habit)
    (user_id : Int) :
    (check_two_bad_weeks db today habit user_id).isSome = true ↔
      (2 ≤ ((weekSummariesSince db user_id (today - 14)).take 2).length ∧
        ∀ s ∈ (weekSummariesSince db user_id (today - 14)).take 2,
          s.average_completion_percentage < 50) := by
  have hle : ((weekSummariesSince db user_id (today - 14)).take 2).length ≤ 2 :=
    List.length_take_le 2 _
  simp only [check_two_bad_weeks]
  split
  · next hlt =>
    constructor
    · intro h; simp at h
    · rintro ⟨h2, _⟩; omega
  · next hge =>
    push_neg at hge
    split
    · next hbad =>
      constructor
      · intro _
        refine ⟨hge, ?_⟩
        have hcount : ((weekSummariesSince db user_id (today - 14)).take 2).countP
            (fun s => decide (s.average_completion_percentage < 50)) =
            ((weekSummariesSince db user_id (today - 14)).take 2).length := by
          have := List.countP_le_length
            (p := fun s => decide (s.average_completion_percentage < 50))
            (l := (weekSummariesSince db user_id (today - 14)).take 2)
          omega
        intro s hs
        exact of_decide_eq_true (List.countP_eq_length.mp hcount s hs)
      · intro _; rfl
    · next hbad =>
      constructor
      · intro h; simp at h
      · rintro ⟨_, hall⟩
        exfalso
        apply hbad
        have hcnt : ((weekSummariesSince db user_id (today - 14)).take 2).countP
            (fun s => decide (s.average_completion_percentage < 50)) =
            ((weekSummariesSince db user_id (today - 14)).take 2).length :=
          List.countP_eq_length.mpr fun a ha => decide_eq_true (hall a ha)
        omega

theorem check_two_bad_weeks_fields (db : Database) (today : Int) (habit : Habit)
    (user_id : Int) (rec : HabitRecommendation)
    (h : check_two_bad_weeks db today habit user_id = some rec) :
    rec.priority = RecommendationPriority.high ∧ rec.bad_weeks_count = some 2 ∧
      rec.suggested_reduction = some (toString habit.target_frequency ++ "x → " ++
        toString (max 1 (habit.target_frequency - 1)) ++ "x per " ++ habit.frequency_unit) := by
  have hle : ((weekSummariesSince db user_id (today - 14)).take 2).length ≤ 2 :=
    List.length_take_le 2 _
  simp only [check_two_bad_weeks] at h
  split at h
  · cases h
  · next hge =>
    split at h
    · next hbad =>
      have hcle := List.countP_le_length
        (p := fun s => decide (s.average_completion_percentage < 50))
        (l := (weekSummariesSince db user_id (today - 14)).take 2)
      rw [Option.some.injEq] at h
      subst h
      refine ⟨rfl, ?_, rfl⟩
      have : ((weekSummariesSince db user_id (today - 14)).take 2).countP
          (fun s => decide (s.average_completion_percentage < 50)) = 2 := by omega
      simp [this]
    · cases h

/-- C3: `_check_two_bad_weeks` returns a recommendation exactly when at least
two week summaries fall in the 14-day lookback and both of the (at most two)
most recent ones are below 50% completion; the recommendation then has
priority high, `bad_weeks_count = 2`, and a suggested reduction of the current
target frequency minus one, floored at one (rendered e.g. "5x → 4x per week"). -/
theorem two_bad_weeks_rule_C3 (db : Database) (today : Int) (habit : Habit) (user_id : Int) :
    ((check_two_bad_weeks db today habit user_id).isSome = true ↔
      (2 ≤ ((weekSummariesSince db user_id (today - 14)).take 2).length ∧
        ∀ s ∈ (weekSummariesSince db user_id (today - 14)).take 2,
          s.average_completion_percentage < 50))
    ∧ ∀ rec, check_two_bad_weeks db today habit user_id = some rec →
        rec.priority = RecommendationPriority.high ∧ rec.bad_weeks_count = some 2 ∧
          rec.suggested_reduction = some (toString habit.target_frequency ++ "x → " ++
            toString (max 1 (habit.target_frequency - 1)) ++ "x per " ++
            habit.frequency_unit) :=
  ⟨check_two_bad_weeks_isSome_iff db today habit user_id,
   fun rec h => check_two_bad_weeks_fields db today habit user_id rec h⟩

/-- Concrete database for the two-bad-weeks scenario: target 5x per week, two
recent week summaries at 40% and 45%. -/
def dbTwoBadWeeks : Database :=
  { habits := [{ id := 1, user_id := 1, name := "Morning Run", target_frequency := 5,
                 frequency_unit := "week", is_active := true }]
    habit_logs := []
    week_summaries :=
      [{ user_id := 1, week_start_date := 93, average_completion_percentage := 40 },
       { user_id := 1, week_start_date := 86, average_completion_percentage := 45 }]
    weekly_recommendations := [] }

/-- The habit of `dbTwoBadWeeks`. -/
def habitMorningRun : Habit :=
  { id := 1, user_id := 1, name := "Morning Run", target_frequency := 5,
    frequency_unit := "week", is_active := true }

/-- Witness for C3: on `dbTwoBadWeeks` the rule fires with priority high,
`bad_weeks_count = 2` and suggestion "5x → 4x per week". -/
theorem two_bad_weeks_rule_C3_witness :
    ∃ rec, check_two_bad_weeks dbTwoBadWeeks 100 habitMorningRun 1 = some rec ∧
      rec.priority = RecommendationPriority.high ∧ rec.bad_weeks_count = some 2 ∧
      rec.suggested_reduction = some "5x → 4x per week" := by
  have h := two_bad_weeks_rule_C3 dbTwoBadWeeks 100 habitMorningRun 1
  obtain ⟨rec, hrec⟩ := Option.isSome_iff_exists.mp (h.1.mpr (by decide))
  obtain ⟨h1, h2, h3⟩ := h.2 rec hrec
  exact ⟨rec, hrec, h1, h2, by rw [h3]; rfl⟩

/-! ### Lemmas for the stretch rule -/

theorem check_stretch_isSome_iff (db : Database) (today : Int) (habit : Habit)
    (user_id : Int) :
    (check_stretch_opportunity db today habit user_id).isSome = true ↔
      (2 ≤ (weekSummariesSince db user_id (today - 28)).length ∧
        (∀ s ∈ weekSummariesSince db user_id (today - 28),
          70 ≤ s.average_completion_percentage) ∧
        ((weekSummariesSince db user_id (today - 28)).map
            WeekSummary.average_completion_percentage).headD 0 -
          ((weekSummariesSince db user_id (today - 28)).map
            WeekSummary.average_completion_percentage).getLastD 0 < 10) := by
  simp only [check_stretch_opportunity]
  split
  · next hlt =>
    constructor
    · intro h; simp at h
    · rintro ⟨h2, _⟩; omega
  · next hge =>
    push_neg at hge
    split
    · next hall =>
      have hall2 : ∃ s ∈ weekSummariesSince db user_id (today - 28),
          s.average_completion_percentage < 70 := by simpa using hall
      obtain ⟨s, hs, hlt70⟩ := hall2
      constructor
      · intro h; simp at h
      · rintro ⟨_, hge70, _⟩
        exact absurd (hge70 s hs) (not_le.mpr hlt70)
    · next hall =>
      have hall2 : ∀ s ∈ weekSummariesSince db user_id (today - 28),
          70 ≤ s.average_completion_percentage := by simpa using hall
      split
      · next htrend =>
        constructor
        · intro _
          refine ⟨hge, fun s hs => hall2 s hs, ?_⟩
          rw [← qsub_eq]; exact htrend
        · intro _; rfl
      · next htrend =>
        constructor
        · intro h; simp at h
        · rintro ⟨_, _, htr⟩
          rw [← qsub_eq] at htr
          exact absurd htr htrend

theorem check_stretch_fields (db : Database) (today : Int) (habit : Habit)
    (user_id : Int) (rec : HabitRecommendation)
    (h : check_stretch_opportunity db today habit user_id = some rec) :
    rec.priority = RecommendationPriority.medium ∧ rec.trend = "stable" ∧
      rec.stability_score = some (qdiv
        (qsum ((weekSummariesSince db user_id (today - 28)).map
          WeekSummary.average_completion_percentage))
        (((weekSummariesSince db user_id (today - 28)).map
          WeekSummary.average_completion_percentage).length)) ∧
      rec.stability_score = some
        ((((weekSummariesSince db user_id (today - 28)).map
            WeekSummary.average_completion_percentage).sum) /
          ((((weekSummariesSince db user_id (today - 28)).map
            WeekSummary.average_completion_percentage).length : ℚ))) := by
  simp only [check_stretch_opportunity] at h
  split at h
  · cases h
  · split at h
    · cases h
    · split at h
      · rw [Option.some.injEq] at h
        subst h
        refine ⟨rfl, rfl, rfl, ?_⟩
        simp only [qdiv_eq, qsum_eq]
      · cases h

/-- C4: `_check_stretch_opportunity` fires exactly when at least two week
summaries lie in the 28-day lookback, all have completion at least 70%, and
the newest minus the oldest completion is strictly below 10 points; the
recommendation then has priority medium, trend "stable", and a stability score
equal to the arithmetic mean of the window's completion percentages. -/
theorem stretch_rule_C4 (db : Database) (today : Int) (habit : Habit) (user_id : Int) :
    ((check_stretch_opportunity db today habit user_id).isSome = true ↔
      (2 ≤ (weekSummariesSince db user_id (today - 28)).length ∧
        (∀ s ∈ weekSummariesSince db user_id (today - 28),
          70 ≤ s.average_completion_percentage) ∧
        ((weekSummariesSince db user_id (today - 28)).map
            WeekSummary.average_completion_percentage).headD 0 -
          ((weekSummariesSince db user_id (today - 28)).map
            WeekSummary.average_completion_percentage).getLastD 0 < 10))
    ∧ ∀ rec, check_stretch_opportunity db today habit user_id = some rec →
        rec.priority = RecommendationPriority.medium ∧ rec.trend = "stable" ∧
          rec.stability_score = some (qdiv
            (qsum ((weekSummariesSince db user_id (today - 28)).map
              WeekSummary.average_completion_percentage))
            (((weekSummariesSince db user_id (today - 28)).map
              WeekSummary.average_completion_percentage).length)) ∧
          rec.stability_score = some
            ((((weekSummariesSince db user_id (today - 28)).map
                WeekSummary.average_completion_percentage).sum) /
              ((((weekSummariesSince db user_id (today - 28)).map
                WeekSummary.average_completion_percentage).length : ℚ))) :=
  ⟨check_stretch_isSome_iff db today habit user_id,
   fun rec h => check_stretch_fields db today habit user_id rec h⟩

/-- Concrete database for the stretch scenario: four week summaries at 72, 75,
78 and 74 percent (newest first), all within the 28-day lookback of day 100. -/
def dbStretch : Database :=
  { habits := [{ id := 2, user_id := 1, name := "Stretch", target_frequency := 3,
                 frequency_unit := "week", is_active := true }]
    habit_logs := []
    week_summaries :=
      [{ user_id := 1, week_start_date := 95, average_completion_percentage := 72 },
       { user_id := 1, week_start_date := 88, average_completion_percentage := 75 },
       { user_id := 1, week_start_date := 81, average_completion_percentage := 78 },
       { user_id := 1, week_start_date := 74, average_completion_percentage := 74 }]
    weekly_recommendations := [] }

/-- The habit of `dbStretch`. -/
def habitStretch : Habit :=
  { id := 2, user_id := 1, name := "Stretch", target_frequency := 3,
    frequency_unit := "week", is_active := true }

/-- Witness for C4 on `dbStretch`: the rule fires with priority medium, trend
stable and stability score 299/4 = 74.75, the mean of 72, 75, 78 and 74. -/
theorem stretch_rule_C4_witness :
    ∃ rec, check_stretch_opportunity dbStretch 100 habitStretch 1 = some rec ∧
      rec.priority = RecommendationPriority.medium ∧ rec.trend = "stable" ∧
      rec.stability_score = some (Rat.divInt 299 4) := by
  have h := stretch_rule_C4 dbStretch 100 habitStretch 1
  obtain ⟨rec, hrec⟩ := Option.isSome_iff_exists.mp
    (h.1.mpr ⟨by decide, by decide, by rw [← qsub_eq]; decide⟩)
  obtain ⟨h1, h2, h3, _⟩ := h.2 rec hrec
  refine ⟨rec, hrec, h1, h2, ?_⟩
  rw [h3]
  decide

/-! ### Lemmas for weekly persistence -/

theorem ruleReduceScope_mem (habit : Habit) (user_id week_start_date : Int)
    (week_completion : ℚ) :
    ∀ r ∈ ruleReduceScope habit user_id week_start_date week_completion,
      r.user_id = user_id ∧ r.week_start_date = week_start_date ∧
        r.recommendation_type = RecommendationType.reduce_scope := by
  intro r hr
  unfold ruleReduceScope at hr
  split at hr
  · rw [List.mem_singleton] at hr; subst hr; exact ⟨rfl, rfl, rfl⟩
  · simp at hr

theorem ruleRedesign_mem (db : Database) (today : Int) (habit : Habit)
    (user_id week_start_date : Int) :
    ∀ r ∈ ruleRedesign db today habit user_id week_start_date,
      r.user_id = user_id ∧ r.week_start_date = week_start_date ∧
        r.recommendation_type = RecommendationType.redesign_habit := by
  intro r hr
  unfold ruleRedesign at hr
  split at hr
  · simp at hr
  · split at hr
    · rw [List.mem_singleton] at hr; subst hr; exact ⟨rfl, rfl, rfl⟩
    · simp at hr

theorem ruleAddStretch_mem (habit : Habit) (user_id week_start_date : Int)
    (week_completion : ℚ) :
    ∀ r ∈ ruleAddStretch habit user_id week_start_date week_completion,
      r.user_id = user_id ∧ r.week_start_date = week_start_date ∧
        r.recommendation_type = RecommendationType.add_stretch := by
  intro r hr
  unfold ruleAddStretch at hr
  split at hr
  · rw [List.mem_singleton] at hr; subst hr; exact ⟨rfl, rfl, rfl⟩
  · simp at hr

theorem ruleConsistency_mem (habit : Habit) (user_id week_start_date : Int)
    (week_completion : ℚ) :
    ∀ r ∈ ruleConsistency habit user_id week_start_date week_completion,
      r.user_id = user_id ∧ r.week_start_date = week_start_date ∧
        r.recommendation_type = RecommendationType.consistency_improvement := by
  intro r hr
  unfold ruleConsistency at hr
  split at hr
  · rw [List.mem_singleton] at hr; subst hr; exact ⟨rfl, rfl, rfl⟩
  · simp at hr

theorem ruleSchedule_mem (db : Database) (today : Int) (habit : Habit)
    (user_id week_start_date : Int) :
    ∀ r ∈ ruleSchedule db today habit user_id week_start_date,
      r.user_id = user_id ∧ r.week_start_date = week_start_date ∧
        r.recommendation_type = RecommendationType.schedule_adjustment := by
  intro r hr
  unfold ruleSchedule at hr
  split at hr
  · simp at hr
  · rw [List.mem_singleton] at hr; subst hr; exact ⟨rfl, rfl, rfl⟩

theorem generate_habit_weekly_rows_key (db : Database) (today : Int) (habit : Habit)
    (user_id week_start_date : Int) (ws : Option WeekSummary) :
    ∀ r ∈ generate_habit_weekly_recommendations db today habit user_id week_start_date ws,
      r.user_id = user_id ∧ r.week_start_date = week_start_date := by
  intro r hr
  simp only [generate_habit_weekly_recommendations, List.mem_append] at hr
  rcases hr with ((((h | h) | h) | h) | h)
  · exact ⟨(ruleReduceScope_mem _ _ _ _ r h).1, (ruleReduceScope_mem _ _ _ _ r h).2.1⟩
  · exact ⟨(ruleRedesign_mem _ _ _ _ _ r h).1, (ruleRedesign_mem _ _ _ _ _ r h).2.1⟩
  · exact ⟨(ruleAddStretch_mem _ _ _ _ r h).1, (ruleAddStretch_mem _ _ _ _ r h).2.1⟩
  · exact ⟨(ruleConsistency_mem _ _ _ _ r h).1, (ruleConsistency_mem _ _ _ _ r h).2.1⟩
  · exact ⟨(ruleSchedule_mem _ _ _ _ _ r h).1, (ruleSchedule_mem _ _ _ _ _ r h).2.1⟩

theorem generated_weekly_rows_key (db : Database) (today user_id week_start_date : Int) :
    ∀ r ∈ (generate_weekly_recommendations db today user_id week_start_date).1,
      r.user_id = user_id ∧ r.week_start_date = week_start_date := by
  intro r hr
  simp only [generate_weekly_recommendations, List.mem_flatMap] at hr
  obtain ⟨habit, _, hmem⟩ := hr
  exact generate_habit_weekly_rows_key db today habit user_id week_start_date _ r hmem

theorem generated_weekly_rows_filter_not_key (db : Database)
    (today user_id week_start_date : Int) :
    ((generate_weekly_recommendations db today user_id week_start_date).1.filter fun r =>
      !(r.user_id == user_id && r.week_start_date == week_start_date)) = [] := by
  rw [List.filter_eq_nil_iff]
  intro r hr
  have h := generated_weekly_rows_key db today user_id week_start_date r hr
  simp [h.1, h.2]

theorem generated_weekly_rows_filter_key (db : Database)
    (today user_id week_start_date : Int) :
    ((generate_weekly_recommendations db today user_id week_start_date).1.filter fun r =>
      r.user_id == user_id && r.week_start_date == week_start_date) =
      (generate_weekly_recommendations db today user_id week_start_date).1 := by
  rw [List.filter_eq_self]
  intro r hr
  have h := generated_weekly_rows_key db today user_id week_start_date r hr
  simp [h.1, h.2]

theorem filter_not_key_idem (l : List WeeklyRecommendationRow) (user_id week_start_date : Int) :
    ((l.filter fun r => !(r.user_id == user_id && r.week_start_date == week_start_date)).filter
      fun r => !(r.user_id == user_id && r.week_start_date == week_start_date)) =
      l.filter fun r => !(r.user_id == user_id && r.week_start_date == week_start_date) := by
  rw [List.filter_filter]
  exact List.filter_congr fun a _ => Bool.and_self _

/-- C5: weekly generation is replace-all for its `(user, week)` key — the
stored table becomes the old rows of other keys plus exactly the freshly
computed rows (which never accumulate), and running the generation a second
time over the resulting state reproduces that state exactly. -/
theorem weekly_regeneration_C5 (db : Database) (today user_id week_start_date : Int) :
    ((generate_weekly_recommendations db today user_id week_start_date).2.weekly_recommendations
      = (db.weekly_recommendations.filter fun r =>
          !(r.user_id == user_id && r.week_start_date == week_start_date)) ++
        (generate_weekly_recommendations db today user_id week_start_date).1)
    ∧ ((generate_weekly_recommendations db today user_id
          week_start_date).2.weekly_recommendations.filter
        fun r => r.user_id == user_id && r.week_start_date == week_start_date)
      = (generate_weekly_recommendations db today user_id week_start_date).1
    ∧ (generate_weekly_recommendations
        (generate_weekly_recommendations db today user_id week_start_date).2
        today user_id week_start_date).2
      = (generate_weekly_recommendations db today user_id week_start_date).2 := by
  have hkey := generated_weekly_rows_filter_key db today user_id week_start_date
  have hnkey := generated_weekly_rows_filter_not_key db today user_id week_start_date
  have h1 : (db.weekly_recommendations.filter fun r =>
      !(r.user_id == user_id && r.week_start_date == week_start_date)).filter
      (fun r => r.user_id == user_id && r.week_start_date == week_start_date) = [] := by
    rw [List.filter_filter]
    apply List.filter_eq_nil_iff.mpr
    intro a _
    cases a.user_id == user_id && a.week_start_date == week_start_date <;> simp
  have hwr : ((generate_weekly_recommendations db today user_id
        week_start_date).2.weekly_recommendations.filter
      fun r => !(r.user_id == user_id && r.week_start_date == week_start_date))
      = db.weekly_recommendations.filter fun r =>
          !(r.user_id == user_id && r.week_start_date == week_start_date) := by
    show (((db.weekly_recommendations.filter fun r =>
        !(r.user_id == user_id && r.week_start_date == week_start_date)) ++
        (generate_weekly_recommendations db today user_id week_start_date).1).filter
      fun r => !(r.user_id == user_id && r.week_start_date == week_start_date)) = _
    rw [List.filter_append, hnkey, filter_not_key_idem]
    simp
  refine ⟨rfl, ?_, ?_⟩
  · show (((db.weekly_recommendations.filter fun r =>
        !(r.user_id == user_id && r.week_start_date == week_start_date)) ++
        (generate_weekly_recommendations db today user_id week_start_date).1).filter
      fun r => r.user_id == user_id && r.week_start_date == week_start_date) = _
    rw [List.filter_append, hkey, h1]
    simp
  · have hfinal : (generate_weekly_recommendations
        (generate_weekly_recommendations db today user_id week_start_date).2
        today user_id week_start_date).2
        = { (generate_weekly_recommendations db today user_id week_start_date).2 with
            weekly_recommendations :=
              ((generate_weekly_recommendations db today user_id
                  week_start_date).2.weekly_recommendations.filter
                fun r => !(r.user_id == user_id && r.week_start_date == week_start_date)) ++
              (generate_weekly_recommendations db today user_id week_start_date).1 } := rfl
    rw [hfinal, hwr]
    rfl

/-- C10: recommendation generation never mutates stored rows other than its
own — `generate_recommendations` leaves the whole session state unchanged
(it only issues SELECT queries), and `generate_weekly_recommendations` leaves
the habit, habit-log and week-summary tables untouched and preserves every
stored weekly recommendation whose `(user, week)` key differs from the one
being regenerated. -/
theorem read_only_frame_C10 (db : Database) (today user_id wuser week_start_date : Int) :
    (run_generate_recommendations db today user_id).2 = db
    ∧ (generate_weekly_recommendations db today wuser week_start_date).2.habits = db.habits
    ∧ (generate_weekly_recommendations db today wuser week_start_date).2.habit_logs
      = db.habit_logs
    ∧ (generate_weekly_recommendations db today wuser week_start_date).2.week_summaries
      = db.week_summaries
    ∧ ((generate_weekly_recommendations db today wuser
          week_start_date).2.weekly_recommendations.filter
        fun r => !(r.user_id == wuser && r.week_start_date == week_start_date))
      = db.weekly_recommendations.filter fun r =>
          !(r.user_id == wuser && r.week_start_date == week_start_date) := by
  refine ⟨rfl, rfl, rfl, rfl, ?_⟩
  show (((db.weekly_recommendations.filter fun r =>
      !(r.user_id == wuser && r.week_start_date == week_start_date)) ++
      (generate_weekly_recommendations db today wuser week_start_date).1).filter
    fun r => !(r.user_id == wuser && r.week_start_date == week_start_date)) = _
  rw [List.filter_append, generated_weekly_rows_filter_not_key, filter_not_key_idem]
  simp

/-- Failing input for C6: a habit whose only two logs in the window are
completed (`completed = 1`) yet carry "busy" notes. -/
def dbCompletedNotes : Database :=
  { habits := [{ id := 1, user_id := 1, name := "Gym", target_frequency := 3,
                 frequency_unit := "week", is_active := true }]
    habit_logs :=
      [{ habit_id := 1, user_id := 1, date := 99, completed := 1, notes := some "busy" },
       { habit_id := 1, user_id := 1, date := 98, completed := 1, notes := some "too busy" }]
    week_summaries := []
    weekly_recommendations := [] }

/-- C6 (code bug): `get_failure_patterns_for_habit` counts notes of completed
entries.  On `dbCompletedNotes` there are zero failures, yet the pattern map
charges the "time" category twice from the completed entries' notes, and
`identify_repeated_failures` reports "time" as a repeated failure — the
extractor's own docstring ("note strings from failed attempts"), the sibling
query in `get_top_failure_reasons_across_habits` (which filters
`completed == 0`), and the spec all require failed entries only, under which
the map would be empty here. -/
theorem completed_notes_counted_C6 :
    (get_failure_patterns_for_habit dbCompletedNotes 100 1 1 14).total_failures = 0
    ∧ (get_failure_patterns_for_habit dbCompletedNotes 100 1 1 14).patterns = [("time", 2)]
    ∧ (identify_repeated_failures dbCompletedNotes 100 1 1 14).map
        RepeatedFailure.pattern = ["time"] := by
  refine ⟨by decide, by decide, by decide⟩

/-! ### Lemmas for the weekly redesign rule -/

theorem identify_mem_two_le (db : Database) (today habit_id user_id days : Int) :
    ∀ x ∈ identify_repeated_failures db today habit_id user_id days,
      2 ≤ x.occurrences := by
  intro x hx
  unfold identify_repeated_failures sortByNatKeyDesc at hx
  rw [List.mem_insertionSort] at hx
  obtain ⟨p, hp, rfl⟩ := List.mem_map.mp hx
  exact of_decide_eq_true (List.mem_filter.mp hp).2

theorem identify_ne_nil_iff (db : Database) (today habit_id user_id days : Int) :
    identify_repeated_failures db today habit_id user_id days ≠ [] ↔
      ∃ p ∈ (get_failure_patterns_for_habit db today habit_id user_id days).patterns,
        2 ≤ p.2 := by
  have hlen : (identify_repeated_failures db today habit_id user_id days).length =
      ((get_failure_patterns_for_habit db today habit_id user_id days).patterns.filter
        fun p => 2 ≤ p.2).length := by
    unfold identify_repeated_failures sortByNatKeyDesc
    rw [List.length_insertionSort, List.length_map]
  constructor
  · intro h
    have hpos : 0 < ((get_failure_patterns_for_habit db today habit_id user_id
        days).patterns.filter fun p => 2 ≤ p.2).length := by
      have := List.length_pos.mpr h
      omega
    obtain ⟨p, hp⟩ := List.exists_mem_of_ne_nil _ (List.length_pos.mp hpos)
    have hmem := List.mem_filter.mp hp
    exact ⟨p, hmem.1, of_decide_eq_true hmem.2⟩
  · rintro ⟨p, hp, h2⟩ hnil
    have hmem : p ∈ (get_failure_patterns_for_habit db today habit_id user_id
        days).patterns.filter fun p => 2 ≤ p.2 :=
      List.mem_filter.mpr ⟨hp, decide_eq_true h2⟩
    have := List.length_pos.mpr (List.ne_nil_of_mem hmem)
    rw [hnil] at hlen
    simp at hlen
    omega

theorem ruleRedesign_ne_nil_iff (db : Database) (today : Int) (habit : Habit)
    (user_id week_start_date : Int) :
    ruleRedesign db today habit user_id week_start_date ≠ [] ↔
      identify_repeated_failures db today habit.id user_id 7 ≠ [] := by
  unfold ruleRedesign
  split
  · next heq => simp [heq]
  · next top rest heq =>
    split
    · next => simp [heq]
    · next h2 =>
      exact absurd (identify_mem_two_le db today habit.id user_id 7 top
        (by rw [heq]; exact List.mem_cons_self _ _)) h2

/-- The redesign trigger as the specification states it: the category counts
over notes attached to the habit's failed entries (`completed = 0`) dated
within the inclusive 7-day span starting at `week_start_date`. -/
def spec_failed_week_notes (db : Database) (habit_id user_id week_start_date : Int) :
    List String :=
  (db.habit_logs.filter fun l =>
    l.habit_id == habit_id && l.user_id == user_id && l.completed == 0 &&
      decide (week_start_date ≤ l.date) && decide (l.date ≤ week_start_date + 6)).filterMap
    HabitLog.notes

/-- Counterexample data for C7: two failed, "busy"-annotated logs inside the
week starting at day 0, with generation run at day 100. -/
def dbWeekFailures : Database :=
  { habits := [{ id := 1, user_id := 1, name := "Write", target_frequency := 4,
                 frequency_unit := "week", is_active := true }]
    habit_logs :=
      [{ habit_id := 1, user_id := 1, date := 2, completed := 0, notes := some "too busy" },
       { habit_id := 1, user_id := 1, date := 3, completed := 0, notes := some "busy day" }]
    week_summaries := []
    weekly_recommendations := [] }

/-- Counterexample for C7 as stated: on `dbWeekFailures` the "time" category
has 2 occurrences among the habit's failed entries within the requested week
(days 0-6), so the claim demands a redesign record, yet a generation run on
day 100 emits none — the rule's window follows the generation date, not
`week_start_date`. -/
theorem weekly_redesign_window_C7_counterexample :
    2 ≤ counterGet
        (extract_patterns_from_notes (spec_failed_week_notes dbWeekFailures 1 1 0)) "time"
    ∧ ((generate_weekly_recommendations dbWeekFailures 100 1 0).1.countP
        fun r => r.recommendation_type == RecommendationType.redesign_habit) = 0 :=
  ⟨by decide, by decide⟩

/-- C7 (amended): for every active habit, a redesign record is generated if and
only if some failure category has at least 2 occurrences among the notes of the
habit's log entries — completed or not — dated within the analyzer's 7-day
window anchored at the generation date (`today - 7 ≤ date`), not within the
`week_start_date` week. -/
theorem weekly_redesign_window_C7 (db : Database) (today : Int) (habit : Habit)
    (user_id week_start_date : Int) (ws : Option WeekSummary) :
    (∃ r ∈ generate_habit_weekly_recommendations db today habit user_id week_start_date ws,
        r.recommendation_type = RecommendationType.redesign_habit)
    ↔ ∃ p ∈ (get_failure_patterns_for_habit db today habit.id user_id 7).patterns,
        2 ≤ p.2 := by
  rw [← identify_ne_nil_iff, ← ruleRedesign_ne_nil_iff db today habit user_id week_start_date]
  constructor
  · rintro ⟨r, hr, htype⟩
    simp only [generate_habit_weekly_recommendations, List.mem_append] at hr
    rcases hr with ((((h | h) | h) | h) | h)
    · exact RecommendationType.noConfusion
        ((ruleReduceScope_mem _ _ _ _ r h).2.2.symm.trans htype)
    · exact List.ne_nil_of_mem h
    · exact RecommendationType.noConfusion
        ((ruleAddStretch_mem _ _ _ _ r h).2.2.symm.trans htype)
    · exact RecommendationType.noConfusion
        ((ruleConsistency_mem _ _ _ _ r h).2.2.symm.trans htype)
    · exact RecommendationType.noConfusion
        ((ruleSchedule_mem _ _ _ _ _ r h).2.2.symm.trans htype)
  · intro hne
    obtain ⟨r, hr⟩ := List.exists_mem_of_ne_nil _ hne
    refine ⟨r, ?_, (ruleRedesign_mem db today habit user_id week_start_date r hr).2.2⟩
    simp only [generate_habit_weekly_recommendations, List.mem_append]
    exact Or.inl (Or.inl (Or.inl (Or.inr hr)))

/-! ### Lemmas for the critical-failure query -/

theorem critical_mem_char (db : Database) (today user_id : Int) (t : ℚ) (x : CriticalHabit) :
    x ∈ get_habits_with_critical_failures db today user_id t ↔
      ∃ p ∈ get_failure_patterns_for_user db today user_id 14,
        t ≤ p.2.failure_rate ∧
        ∃ habit, db.habits.find? (fun h => h.id == p.1) = some habit ∧
          x = { habit_id := p.1, habit_name := habit.name,
                failure_rate := p.2.failure_rate, total_failures := p.2.total_failures,
                total_days_tracked := p.2.total_days_tracked,
                consecutive_failures := p.2.consecutive_failures } := by
  unfold get_habits_with_critical_failures sortByKeyDesc
  rw [List.mem_insertionSort, List.mem_filterMap]
  constructor
  · rintro ⟨p, hp, hf⟩
    refine ⟨p, hp, ?_⟩
    by_cases hc : t ≤ p.2.failure_rate
    · rw [if_pos hc] at hf
      split at hf
      · next habit heq =>
        rw [Option.some.injEq] at hf
        exact ⟨hc, habit, heq, hf.symm⟩
      · next heq => cases hf
    · rw [if_neg hc] at hf; cases hf
  · rintro ⟨p, hp, hc, habit, hfind, rfl⟩
    refine ⟨p, hp, ?_⟩
    rw [if_pos hc, hfind]

theorem length_filterMap_le {α β : Type} (f g : α → Option β) (l : List α)
    (h : ∀ a ∈ l, (f a).isSome → (g a).isSome) :
    (l.filterMap f).length ≤ (l.filterMap g).length := by
  induction l with
  | nil => simp
  | cons a l ih =>
    have ih2 := ih fun b hb hs => h b (List.mem_cons_of_mem a hb) hs
    rcases hfa : f a with _ | x
    · rcases hga : g a with _ | y <;> simp [List.filterMap_cons, hfa, hga] <;> omega
    · have hgs : (g a).isSome := h a (List.mem_cons_self _ _) (by simp [hfa])
      rcases hga : g a with _ | y
      · rw [hga] at hgs; simp at hgs
      · simp only [List.filterMap_cons, hfa, hga, List.length_cons]
        omega

/-- C8: raising the threshold of `get_habits_with_critical_failures` never adds
results — at a higher threshold the returned list is a subset of (and no longer
than) the lower-threshold list; every returned habit's failure rate reaches the
threshold, and the list is sorted descending by failure rate. -/
theorem critical_threshold_monotone_C8 (db : Database) (today user_id : Int) (t1 t2 : ℚ)
    (h : t1 ≤ t2) :
    (∀ x ∈ get_habits_with_critical_failures db today user_id t2,
        x ∈ get_habits_with_critical_failures db today user_id t1)
    ∧ (get_habits_with_critical_failures db today user_id t2).length ≤
        (get_habits_with_critical_failures db today user_id t1).length
    ∧ (∀ x ∈ get_habits_with_critical_failures db today user_id t2, t2 ≤ x.failure_rate)
    ∧ (get_habits_with_critical_failures db today user_id t2).Pairwise
        fun a b => b.failure_rate ≤ a.failure_rate := by
  refine ⟨?_, ?_, ?_, ?_⟩
  · intro x hx
    rw [critical_mem_char] at hx ⊢
    obtain ⟨p, hp, hc, habit, hfind, rfl⟩ := hx
    exact ⟨p, hp, le_trans h hc, habit, hfind, rfl⟩
  · simp only [get_habits_with_critical_failures, sortByKeyDesc]
    rw [List.length_insertionSort, List.length_insertionSort]
    apply length_filterMap_le
    intro p _ hs
    by_cases hc : t2 ≤ p.2.failure_rate
    · rw [if_pos hc] at hs
      rw [if_pos (le_trans h hc)]
      exact hs
    · rw [if_neg hc] at hs
      simp at hs
  · intro x hx
    rw [critical_mem_char] at hx
    obtain ⟨p, hp, hc, habit, hfind, rfl⟩ := hx
    exact hc
  · simp only [get_habits_with_critical_failures, sortByKeyDesc]
    haveI hto : IsTotal CriticalHabit fun a b => b.failure_rate ≤ a.failure_rate :=
      ⟨fun a b => le_total b.failure_rate a.failure_rate⟩
    haveI htr : IsTrans CriticalHabit fun a b => b.failure_rate ≤ a.failure_rate :=
      ⟨fun _ _ _ hab hbc => le_trans hbc hab⟩
    exact List.sorted_insertionSort _ _

/-- Concrete data for the critical-failure witness: habit 1 fails every day
(rate 100), habit 2 fails half the time (rate 50). -/
def dbCritical : Database :=
  { habits :=
      [{ id := 1, user_id := 1, name := "A", target_frequency := 1,
         frequency_unit := "day", is_active := true },
       { id := 2, user_id := 1, name := "B", target_frequency := 1,
         frequency_unit := "day", is_active := true }]
    habit_logs :=
      [{ habit_id := 1, user_id := 1, date := 99, completed := 0, notes := none },
       { habit_id := 1, user_id := 1, date := 98, completed := 0, notes := none },
       { habit_id := 2, user_id := 1, date := 99, completed := 0, notes := none },
       { habit_id := 2, user_id := 1, date := 98, completed := 1, notes := none }]
    week_summaries := []
    weekly_recommendations := [] }

/-- Witness for C8 at thresholds 40 and 60 on `dbCritical`. -/
theorem critical_threshold_monotone_C8_witness :
    (get_habits_with_critical_failures dbCritical 100 1 60).length ≤
      (get_habits_with_critical_failures dbCritical 100 1 40).length :=
  (critical_threshold_monotone_C8 dbCritical 100 1 40 60 (by decide)).2.1

/-- C9: at a weekly completion of exactly 30.0% neither the reduce-scope rule
(strictly below 30) nor the consistency rule (at least 70, below 85) fires, so
the generated rows for the habit contain no record of either type. -/
theorem thirty_percent_boundary_C9 (db : Database) (today : Int) (habit : Habit)
    (user_id week_start_date : Int) (ws : Option WeekSummary)
    (h : get_habit_week_completion db habit.id user_id week_start_date = 30) :
    ((generate_habit_weekly_recommendations db today habit user_id
        week_start_date ws).countP
      fun r => r.recommendation_type == RecommendationType.reduce_scope) = 0
    ∧ ((generate_habit_weekly_recommendations db today habit user_id
        week_start_date ws).countP
      fun r => r.recommendation_type == RecommendationType.consistency_improvement) = 0 := by
  have h1 : ruleReduceScope habit user_id week_start_date 30 = [] := by
    unfold ruleReduceScope
    rw [if_neg (lt_irrefl (30 : ℚ))]
  have h3 : ruleAddStretch habit user_id week_start_date 30 = [] := by
    unfold ruleAddStretch
    rw [if_neg]
    norm_num
  have h4 : ruleConsistency habit user_id week_start_date 30 = [] := by
    unfold ruleConsistency
    rw [if_neg]
    rintro ⟨h70, _⟩
    norm_num at h70
  constructor <;>
  · rw [List.countP_eq_zero]
    intro r hr
    simp only [generate_habit_weekly_recommendations, h, h1, h3, h4, List.mem_append,
      List.not_mem_nil, false_or, or_false] at hr
    rcases hr with hr | hr
    · rw [(ruleRedesign_mem _ _ _ _ _ r hr).2.2]; decide
    · rw [(ruleSchedule_mem _ _ _ _ _ r hr).2.2]; decide

/-- The habit of `dbThirty`. -/
def habitThirty : Habit :=
  { id := 1, user_id := 1, name := "Meditate", target_frequency := 7,
    frequency_unit := "week", is_active := true }

/-- Concrete data for the 30% boundary: ten logs in the week starting at day 0,
three of them completed, giving exactly 30.0% completion. -/
def dbThirty : Database :=
  { habits := [habitThirty]
    habit_logs :=
      [{ habit_id := 1, user_id := 1, date := 0, completed := 1, notes := none },
       { habit_id := 1, user_id := 1, date := 1, completed := 1, notes := none },
       { habit_id := 1, user_id := 1, date := 2, completed := 1, notes := none },
       { habit_id := 1, user_id := 1, date := 3, completed := 0, notes := none },
       { habit_id := 1, user_id := 1, date := 4, completed := 0, notes := none },
       { habit_id := 1, user_id := 1, date := 5, completed := 0, notes := none },
       { habit_id := 1, user_id := 1, date := 6, completed := 0, notes := none },
       { habit_id := 1, user_id := 1, date := 4, completed := 0, notes := none },
       { habit_id := 1, user_id := 1, date := 5, completed := 0, notes := none },
       { habit_id := 1, user_id := 1, date := 6, completed := 0, notes := none }]
    week_summaries := []
    weekly_recommendations := [] }

/-- Witness for C9 on `dbThirty`, whose week completion is exactly 30%. -/
theorem thirty_percent_boundary_C9_witness :
    ((generate_habit_weekly_recommendations dbThirty 100 habitThirty 1 0 none).countP
      fun r => r.recommendation_type == RecommendationType.reduce_scope) = 0
    ∧ ((generate_habit_weekly_recommendations dbThirty 100 habitThirty 1 0 none).countP
      fun r => r.recommendation_type == RecommendationType.consistency_improvement) = 0 :=
  thirty_percent_boundary_C9 dbThirty 100 habitThirty 1 0 none (by decide)
